import Mathlib

/-!
Verification development for `NumberOfBuildingCrossing.py`, a script that, for
every pair of buildings filtered out of an OSM polygon feature class, counts
how many building footprints the straight line between the two buildings'
centroids intersects, and exports a centroid coordinate table together with
the resulting count matrix.

The geometric primitives (attribute selection, line construction, the spatial
`INTERSECT` test, centroid extraction) are calls into the external `arcpy`
library; they are embedded abstractly.  Everything the script itself does —
the attribute filter, the id-field lookup, the double loop over ordered pairs,
the per-pair selection clause, the construction of the polyline from the
selected centroid set, the count of selected polygons, and the assembly of the
two output dictionaries — is translated directly.
-/

namespace BuildingCrossing

/-- One input polygon record as the script sees it: the value of its
`building` attribute (the filter clause is `building = 'yes'`) and its
vertex list (used only to express degeneracy; the script never inspects it). -/
structure Record where
  building : String
  vertices : List (Int × Int)
deriving DecidableEq

/-- The attribute filter performed at load time
(`SelectLayerByAttribute ... 'building = \'yes\''` followed by
`CopyFeatures` into the `_buildings_only` feature class, lines 103-110).
It is the only filtering the script performs: no geometric validity check
of any kind is applied. -/
def filter_buildings (rs : List Record) : List Record :=
  rs.filter (fun r => r.building = "yes")

/-- A field of a feature class: its name and its type string, as reported by
`arcpy.ListFields`. -/
structure Field where
  name : String
  ftype : String
deriving DecidableEq

/-- The list comprehension of `check_object_id` (line 43): the names of all
fields whose type is not `Geometry`. -/
def fieldNames (fs : List Field) : List String :=
  (fs.filter (fun f => f.ftype ≠ "Geometry")).map (fun f => f.name)

/-- `check_object_id` (lines 33-55): looks for the id field among the
non-geometry field names, trying `OID`, then `OBJECTID`, then `ObjectID`.
When none of the three is present the Python function reaches
`return points_id` with `points_id` never assigned and raises an unbound
local variable error; that failure is embedded as `none`. -/
def check_object_id (fs : List Field) : Option String :=
  let fields := fieldNames fs
  if "OID" ∈ fields then some "OID"
  else if "OBJECTID" ∈ fields then some "OBJECTID"
  else if "ObjectID" ∈ fields then some "ObjectID"
  else none

/-- The polyline produced by `create_line` from the selected centroids,
identified by the centroid ids it passes through.  The selection clause
`OID = i Or OID = j` selects the SET {i, j}; the search cursor walks that
selection in ascending OID order, so for i ≠ j the polyline runs through
centroids `min i j` then `max i j`, and for i = j a single centroid is
selected and the polyline is built from one point only. -/
inductive Polyline where
  | seg : Nat → Nat → Polyline
  | pt : Nat → Polyline
deriving DecidableEq

/-- `create_line` applied to the selection `OID = i Or OID = j`
(lines 147-151 together with 58-86). -/
def create_line (i j : Nat) : Polyline :=
  if i = j then Polyline.pt i else Polyline.seg (min i j) (max i j)

/-- The building / centroid ids `1 .. n`: the loops at lines 143 and 146 run
`range(1, n_centroids + 1)`, matching the sequential ObjectIDs of the freshly
copied feature classes. -/
def ids (n : Nat) : List Nat := List.range' 1 n

/-- The inner-loop count `n_crossed_building` (lines 159-166): select, among
ALL `n` building polygons, those intersecting the polyline for the pair
`(i, j)` and count the selected rows.  The intersection test itself is the
external `SelectLayerByLocation ... INTERSECT` call, embedded as the oracle
`inter : Polyline → Nat → Bool` (`inter L k` = does building `k`'s footprint
intersect the polyline `L`).  No id is excluded from the count. -/
def n_crossed_building (n : Nat) (inter : Polyline → Nat → Bool) (i j : Nat) : Nat :=
  ((ids n).filter (fun k => inter (create_line i j) k)).length

/-- Row `i` of `dict_out`: the inner loop at line 146 appends the count for
`(i, j)` for every `j` in `1 .. n`, in order. -/
def dict_row (n : Nat) (inter : Polyline → Nat → Bool) (i : Nat) : List Nat :=
  (ids n).map (fun j => n_crossed_building n inter i j)

/-- `dict_out` (lines 143-168): one row per id `i` in `1 .. n`. -/
def dict_out (n : Nat) (inter : Polyline → Nat → Bool) : List (Nat × List Nat) :=
  (ids n).map (fun i => (i, dict_row n inter i))

/-- The matrix entry for the pair `(i, j)`: the `j`-th element (1-indexed) of
row `i` of `dict_out`. -/
def matrixEntry (n : Nat) (inter : Polyline → Nat → Bool) (i j : Nat) : Nat :=
  (dict_row n inter i).getD (j - 1) 0

/-- `geo_coord` (lines 177-181): after `AddXY`, one entry per centroid row
mapping its id to its coordinates.  The centroid coordinates are external
data, embedded as the parameter `coords`. -/
def geo_coord (n : Nat) (coords : Nat → Int × Int) : List (Nat × (Int × Int)) :=
  (ids n).map (fun i => (i, coords i))

/-- The ordered pairs visited by the double loop at lines 143-146:
`i` from 1 to n, and for each, `j` from 1 to n — every ordered pair,
the diagonal included; one polyline is built per visited pair. -/
def pairs_processed (n : Nat) : List (Nat × Nat) :=
  (ids n).flatMap (fun i => (ids n).map (fun j => (i, j)))

/-- One pair-work-item applied to a matrix state: writes the pair's own count
into its own cell, leaving every other cell alone.  This is the spec's
scheduling abstraction (§5) of the per-pair body: each item depends only on
the read-only inputs, never on previously written cells. -/
def write_cell (n : Nat) (inter : Polyline → Nat → Bool)
    (m : Nat → Nat → Nat) (p : Nat × Nat) : Nat → Nat → Nat :=
  fun a b => if (a, b) = p then n_crossed_building n inter p.1 p.2 else m a b

/-- Processing a list of pair-work-items in the given order, starting from a
matrix state `m`.  Permuting the list models permuting the processing order
(or any interleaving of parallel workers, since the writes touch disjoint
cells). -/
def run_pairs (n : Nat) (inter : Polyline → Nat → Bool)
    (ps : List (Nat × Nat)) (m : Nat → Nat → Nat) : Nat → Nat → Nat :=
  ps.foldl (write_cell n inter) m

/-! ### Concrete scenes used as evaluation inputs

`twoSquares`: two far-apart axis-aligned unit squares, building 1 around
(0.5, 0.5) and building 2 around (10.5, 0.5).  The segment between the two
centroids crosses both footprints (it starts inside one and ends inside the
other) and nothing else.  A polyline built from a single point is an empty
geometry in arcpy, and an `INTERSECT` selection against an empty geometry
selects nothing, so every `pt` case is `false`. -/
def twoSquares : Polyline → Nat → Bool
  | Polyline.seg 1 2, 1 => true
  | Polyline.seg 1 2, 2 => true
  | _, _ => false

/-- An oracle for a scene in which no footprint is intersected by any of the
constructed polylines; in particular every degenerate one-point polyline is
an empty geometry and selects nothing. -/
def oneSquare : Polyline → Nat → Bool := fun _ _ => false

/-- A degenerate input polygon: only two distinct vertices, tagged
`building = 'yes'`. -/
def degenRecord : Record := ⟨"yes", [(0, 0), (1, 1)]⟩

/-- A non-building input polygon (attribute value is not `yes`). -/
def parkRecord : Record := ⟨"no", [(0, 0), (0, 1), (1, 0)]⟩

/-! ### Helper lemmas -/

/-- The polyline depends only on the selected centroid set {i, j}. -/
theorem create_line_comm (i j : Nat) : create_line i j = create_line j i := by
  unfold create_line
  rcases eq_or_ne i j with h | h
  · simp [h]
  · simp [h, h.symm, min_comm, max_comm]

theorem n_crossed_building_comm (n : Nat) (inter : Polyline → Nat → Bool) (i j : Nat) :
    n_crossed_building n inter i j = n_crossed_building n inter j i := by
  unfold n_crossed_building
  rw [create_line_comm]

theorem mem_ids {n j : Nat} : j ∈ ids n ↔ 1 ≤ j ∧ j < 1 + n := by
  simp [ids, List.mem_range'_1]

theorem dict_row_getD {n : Nat} (inter : Polyline → Nat → Bool) (i : Nat) {j : Nat}
    (hj : j ∈ ids n) : (dict_row n inter i).getD (j - 1) 0 = n_crossed_building n inter i j := by
  rcases mem_ids.mp hj with ⟨h1, h2⟩
  have hlen : j - 1 < (dict_row n inter i).length := by
    simp only [dict_row, List.length_map, ids, List.length_range']
    omega
  rw [List.getD_eq_getElem _ _ hlen]
  simp only [dict_row, List.getElem_map]
  congr 1
  simp only [ids]
  rw [List.getElem_range']
  omega

theorem run_pairs_not_mem {n : Nat} {inter : Polyline → Nat → Bool}
    {ps : List (Nat × Nat)} {i j : Nat} (h : (i, j) ∉ ps) (m : Nat → Nat → Nat) :
    run_pairs n inter ps m i j = m i j := by
  induction ps generalizing m with
  | nil => rfl
  | cons p rest ih =>
    have hne : (i, j) ≠ p := fun he => h (he ▸ List.mem_cons_self p rest)
    have hrest : (i, j) ∉ rest := fun hr => h (List.mem_cons_of_mem p hr)
    show run_pairs n inter rest (write_cell n inter m p) i j = m i j
    rw [ih hrest]
    simp [write_cell, hne]

theorem run_pairs_mem {n : Nat} {inter : Polyline → Nat → Bool}
    {ps : List (Nat × Nat)} {i j : Nat} (h : (i, j) ∈ ps) (m : Nat → Nat → Nat) :
    run_pairs n inter ps m i j = n_crossed_building n inter i j := by
  induction ps generalizing m with
  | nil => cases h
  | cons p rest ih =>
    show run_pairs n inter rest (write_cell n inter m p) i j = _
    by_cases hr : (i, j) ∈ rest
    · exact ih hr _
    · have hp : (i, j) = p := by
        rcases List.mem_cons.mp h with he | hm
        · exact he
        · exact absurd hm hr
      rw [run_pairs_not_mem hr]
      subst hp
      simp [write_cell]

/-! ### The claims -/

/-- Claim C1: the spec states that the recorded count for a pair (i, j) counts
only OTHER buildings k with k ≠ i and k ≠ j.  The code violates this: the
count at lines 162-166 ranges over every selected polygon with no exclusion,
so the two endpoint buildings themselves are counted whenever the segment
touches their footprints (it starts and ends inside them in the generic case).
The code's own comment at line 158 — the number of crossed buildings is the
number of intersecting polygons minus 2 (the initial points) — documents the
needed subtraction, which is never performed.  Evaluation at the failing
input: two far-apart unit squares with nothing between them; the code records
2 for the pair (1, 2) while the number of other intersected buildings is 0. -/
theorem C1_endpoints_included_in_count :
    n_crossed_building 2 twoSquares 1 2 = 2 ∧
    ((ids 2).filter
      (fun k => (k != 1) && (k != 2) && twoSquares (create_line 1 2) k)).length = 0 := by
  exact ⟨by decide, by decide⟩

/-- Claim C2: `matrix[i][i] == 0` for every i in 1..n.  The loop does not
skip `j = i`, but for that case the clause `OID = i Or OID = i` selects a
single centroid and `create_line` builds `arcpy.Polyline` from a one-point
array, which is an empty geometry; `SelectLayerByLocation ... INTERSECT`
against an empty geometry selects nothing, and the cursor over the empty
selection yields zero rows.  The hypothesis `hempty` records exactly this
semantics of the external call — a one-point polyline intersects no
footprint — and under it every diagonal entry is 0, as the claim states. -/
theorem C2_zero_diagonal (n : Nat) (inter : Polyline → Nat → Bool)
    (hempty : ∀ a k, inter (Polyline.pt a) k = false) (i : Nat)
    (hi : i ∈ ids n) : matrixEntry n inter i i = 0 := by
  rw [matrixEntry, dict_row_getD inter i hi]
  unfold n_crossed_building create_line
  simp [hempty]

theorem C2_zero_diagonal_witness :
    matrixEntry 1 oneSquare 1 1 = 0 :=
  C2_zero_diagonal 1 oneSquare (fun _ _ => rfl) 1 (by decide)

/-- Claim C3: for all distinct ids i ≠ j in 1..n the produced matrix is
symmetric.  This holds: the selection clause `OID = i Or OID = j` selects the
same centroid set for (i, j) and (j, i), the cursor walks it in the same
ascending-OID order, so the same polyline is built and the same polygons are
selected and counted for both orders. -/
theorem C3_matrix_symmetric (n : Nat) (inter : Polyline → Nat → Bool) (i j : Nat)
    (hi : i ∈ ids n) (hj : j ∈ ids n) (_hij : i ≠ j) :
    matrixEntry n inter i j = matrixEntry n inter j i := by
  unfold matrixEntry
  rw [dict_row_getD inter i hj, dict_row_getD inter j hi]
  exact n_crossed_building_comm n inter i j

theorem C3_matrix_symmetric_witness :
    matrixEntry 2 twoSquares 1 2 = matrixEntry 2 twoSquares 2 1 :=
  C3_matrix_symmetric 2 twoSquares 1 2 (by decide) (by decide) (by decide)

/-- Claim C4: the spec bounds every off-diagonal entry by `n - 2`.  The code
violates the upper bound, for the same reason as C1: the endpoint buildings
are included in the count, so an entry can reach n.  Evaluation at the failing
input: with n = 2 far-apart unit squares the entry for (1, 2) is 2, strictly
above n - 2 = 0. -/
theorem C4_bound_exceeded :
    matrixEntry 2 twoSquares 1 2 = 2 ∧ ¬ matrixEntry 2 twoSquares 1 2 ≤ 2 - 2 := by
  exact ⟨by decide, by decide⟩

/-- Claim C5, counterexample: the claim states that only pairs (i, j) with
i < j are iterated and that n·(n−1)/2 segments are constructed.  The double
loop at lines 143-146 visits every ordered pair including the diagonal:
already for n = 2 the visited list contains (2, 1) and (1, 1), and 4 polylines
are constructed where the claim promises 2·(2−1)/2 = 1. -/
theorem C5_all_ordered_pairs_visited :
    (2, 1) ∈ pairs_processed 2 ∧ (1, 1) ∈ pairs_processed 2 ∧
    (pairs_processed 2).length = 4 ∧ (pairs_processed 2).length ≠ 2 * (2 - 1) / 2 := by
  refine ⟨by decide, by decide, by decide, by decide⟩

/-- Claim C5, amended: the double loop visits every ordered pair (i, j) with
i, j in 1..n, the diagonal included, constructing one polyline per visit —
n·n segments in total rather than n·(n−1)/2 — and computes the counts for
(i, j) and (j, i) independently rather than writing one result to both cells. -/
theorem C5_pair_iteration_shape (n : Nat) :
    (pairs_processed n).length = n * n ∧
    ∀ p : Nat × Nat, p ∈ pairs_processed n ↔ p.1 ∈ ids n ∧ p.2 ∈ ids n := by
  constructor
  · simp only [pairs_processed, ids, List.length_flatMap, Function.comp_def,
      List.length_map, List.length_range', List.map_const', List.sum_replicate,
      smul_eq_mul]
  · intro p
    constructor
    · intro hp
      rcases List.mem_flatMap.mp hp with ⟨i, hi, hmem⟩
      rcases List.mem_map.mp hmem with ⟨j, hj, he⟩
      rw [← he]
      exact ⟨hi, hj⟩
    · rintro ⟨h1, h2⟩
      exact List.mem_flatMap.mpr ⟨p.1, h1, List.mem_map.mpr ⟨p.2, h2, rfl⟩⟩

theorem C5_pair_iteration_shape_witness :
    (2, 1) ∈ pairs_processed 2 :=
  ((C5_pair_iteration_shape 2).2 (2, 1)).mpr ⟨by decide, by decide⟩

/-- Claim C6, counterexample: the claim states that a polygon with fewer than
3 distinct vertices is rejected at load time with a GeometryError and is
absent from both outputs.  The script has no geometric validity check at all
— its only load-time filter is the attribute clause `building = 'yes'` — so a
degenerate two-vertex polygon tagged `yes` is loaded, receives id 1, and
appears in both the coordinate table and the crossing matrix. -/
theorem C6_degenerate_not_rejected :
    degenRecord.vertices.dedup.length < 3 ∧
    filter_buildings [degenRecord] = [degenRecord] ∧
    (geo_coord (filter_buildings [degenRecord]).length (fun _ => (0, 0))).map Prod.fst
      = [1] ∧
    (dict_out (filter_buildings [degenRecord]).length oneSquare).map Prod.fst = [1] := by
  refine ⟨by decide, by decide, by decide, by decide⟩

/-- Claim C6, amended: degenerate polygons are not rejected and no
GeometryError exists; the only load-time filter is the `building = 'yes'`
attribute clause, so every record whose attribute is `yes` — regardless of
how few distinct vertices its polygon has — is loaded into the building set
and thus contributes to both outputs. -/
theorem C6_no_validity_filter (rs : List Record) (r : Record)
    (hmem : r ∈ rs) (hyes : r.building = "yes") : r ∈ filter_buildings rs :=
  List.mem_filter.mpr ⟨hmem, by simp [hyes]⟩

theorem C6_no_validity_filter_witness :
    degenRecord ∈ filter_buildings [degenRecord] :=
  C6_no_validity_filter [degenRecord] degenRecord (by decide) (by decide)

/-- Claim C7: the coordinate table has exactly one entry per building,
covering exactly the ids 1..n in order; the matrix has one row per id in
1..n, each row is a list of exactly n counts, and the j-th entry (1-indexed)
of row i is the count recorded for the pair (i, j). -/
theorem C7_output_shape (n : Nat) (coords : Nat → Int × Int)
    (inter : Polyline → Nat → Bool) :
    (geo_coord n coords).map Prod.fst = ids n ∧
    (dict_out n inter).map Prod.fst = ids n ∧
    (∀ i, i ∈ ids n →
      (i, dict_row n inter i) ∈ dict_out n inter ∧
      (dict_row n inter i).length = n ∧
      ∀ j, j ∈ ids n →
        (dict_row n inter i).getD (j - 1) 0 = n_crossed_building n inter i j) := by
  refine ⟨?_, ?_, ?_⟩
  · simp [geo_coord, List.map_map, Function.comp_def]
  · simp [dict_out, List.map_map, Function.comp_def]
  · intro i hi
    refine ⟨List.mem_map.mpr ⟨i, hi, rfl⟩, ?_, ?_⟩
    · simp [dict_row, ids]
    · intro j hj
      exact dict_row_getD inter i hj

theorem C7_output_shape_witness :
    (dict_row 2 oneSquare 1).getD 1 0 = n_crossed_building 2 oneSquare 1 2 :=
  ((C7_output_shape 2 (fun _ => (0, 0)) oneSquare).2.2 1 (by decide)).2.2 2 (by decide)

/-- Claim C8: every matrix cell is a pure function of its own pair and the
frozen building data alone — the per-pair body reads only the read-only
centroid and polygon layers and writes only its own cell — so processing the
pairs in ANY order (any interleaving of workers) that visits the pair yields
exactly the value the sequential double loop records, and two runs over the
same input produce identical matrices. -/
theorem C8_order_independence (n : Nat) (inter : Polyline → Nat → Bool)
    (ps : List (Nat × Nat)) (m0 : Nat → Nat → Nat) (i j : Nat)
    (hp : (i, j) ∈ ps) (hj : j ∈ ids n) :
    run_pairs n inter ps m0 i j = matrixEntry n inter i j := by
  rw [run_pairs_mem hp, matrixEntry, dict_row_getD inter i hj]

theorem C8_order_independence_witness :
    run_pairs 2 twoSquares [(2, 2), (2, 1), (1, 2), (1, 1)] (fun _ _ => 0) 1 2 =
      matrixEntry 2 twoSquares 1 2 :=
  C8_order_independence 2 twoSquares [(2, 2), (2, 1), (1, 2), (1, 1)] (fun _ _ => 0) 1 2
    (by decide) (by decide)

/-- Claim C9: `check_object_id` returns a field name only when the layer has
a field named OID, OBJECTID or ObjectID (preferring them in that order among
the non-geometry fields it inspects); when none of the three is present it
fails with an unbound local variable error, embedded as `none`. -/
theorem C9_check_object_id (fs : List Field) :
    ((check_object_id fs).isSome →
      "OID" ∈ fs.map Field.name ∨ "OBJECTID" ∈ fs.map Field.name ∨
        "ObjectID" ∈ fs.map Field.name) ∧
    (("OID" ∉ fs.map Field.name ∧ "OBJECTID" ∉ fs.map Field.name ∧
        "ObjectID" ∉ fs.map Field.name) → check_object_id fs = none) ∧
    ("OID" ∈ fieldNames fs → check_object_id fs = some "OID") ∧
    ("OID" ∉ fieldNames fs → "OBJECTID" ∈ fieldNames fs →
      check_object_id fs = some "OBJECTID") ∧
    ("OID" ∉ fieldNames fs → "OBJECTID" ∉ fieldNames fs →
      "ObjectID" ∈ fieldNames fs → check_object_id fs = some "ObjectID") := by
  have hsub : ∀ x, x ∈ fieldNames fs → x ∈ fs.map Field.name := by
    intro x hx
    rcases List.mem_map.mp hx with ⟨f, hf, he⟩
    exact List.mem_map.mpr ⟨f, (List.mem_filter.mp hf).1, he⟩
  refine ⟨?_, ?_, ?_, ?_, ?_⟩
  · intro hs
    by_cases h1 : "OID" ∈ fieldNames fs
    · exact Or.inl (hsub _ h1)
    by_cases h2 : "OBJECTID" ∈ fieldNames fs
    · exact Or.inr (Or.inl (hsub _ h2))
    by_cases h3 : "ObjectID" ∈ fieldNames fs
    · exact Or.inr (Or.inr (hsub _ h3))
    simp [check_object_id, h1, h2, h3] at hs
  · rintro ⟨g1, g2, g3⟩
    have h1 : "OID" ∉ fieldNames fs := fun h => g1 (hsub _ h)
    have h2 : "OBJECTID" ∉ fieldNames fs := fun h => g2 (hsub _ h)
    have h3 : "ObjectID" ∉ fieldNames fs := fun h => g3 (hsub _ h)
    simp [check_object_id, h1, h2, h3]
  · intro h1
    simp [check_object_id, h1]
  · intro h1 h2
    simp [check_object_id, h1, h2]
  · intro h1 h2 h3
    simp [check_object_id, h1, h2, h3]

theorem C9_check_object_id_witness :
    check_object_id [⟨"OBJECTID", "Integer"⟩] = some "OBJECTID" :=
  (C9_check_object_id [⟨"OBJECTID", "Integer"⟩]).2.2.2.1 (by decide) (by decide)

/-- Claim C10: every building contributing to either output comes from an
input polygon whose `building` attribute equals `yes`, and every other input
polygon is excluded by the attribute filter — the first step of `main`,
performed before the centroid feature class and everything downstream is
computed from the filtered copy. -/
theorem C10_only_yes_buildings (rs : List Record) (r : Record) :
    (r ∈ filter_buildings rs → r.building = "yes") ∧
    (r ∈ rs → r.building ≠ "yes" → r ∉ filter_buildings rs) := by
  constructor
  · intro h
    simpa using (List.mem_filter.mp h).2
  · intro _ hne h
    exact hne (by simpa using (List.mem_filter.mp h).2)

theorem C10_only_yes_buildings_witness :
    parkRecord ∉ filter_buildings [parkRecord] :=
  (C10_only_yes_buildings [parkRecord] parkRecord).2 (by decide) (by decide)

end BuildingCrossing
